import Mathlib

/-!
Verification of the `mcp_server_fetch2` fetch-extract-cache-paginate pipeline.

The Python sources (`src/mcp_server_fetch2/server.py` and
`src/mcp_server_fetch2/__init__.py`) are shallowly embedded below.  Python
strings are modelled as Lean `String` (lists of characters); machine integers
arriving from the tool interface are modelled as `Int`; the external
collaborators (httpx, readabilipy, markdownify, MarkItDown, Protego, argparse's
parsed values, urlparse) are passed in as explicit oracle parameters, so every
theorem quantifies over their behaviour.
-/

set_option autoImplicit false

namespace McpFetch

/-! ## Generic string helpers (Python string operations) -/

/-- Test whether `pre` is a prefix of `l` (Python `str.startswith` on lists). -/
def hasPrefixSeq {α : Type} [BEq α] : List α → List α → Bool
  | [], _ => true
  | _ :: _, [] => false
  | a :: as, b :: bs => a == b && hasPrefixSeq as bs

/-- Test whether `needle` occurs contiguously inside `hay` (Python `in`). -/
def hasSubstring {α : Type} [BEq α] (needle : List α) : List α → Bool
  | [] => hasPrefixSeq needle []
  | b :: bs => hasPrefixSeq needle (b :: bs) || hasSubstring needle bs

/-- Test whether `needle` is a suffix of `hay` (Python `str.endswith`). -/
def hasSuffixSeq {α : Type} [BEq α] (needle hay : List α) : Bool :=
  hasPrefixSeq needle.reverse hay.reverse

/-- Python `str.lower()`, restricted to the ASCII case mapping. -/
def strLower (s : String) : String := String.mk (s.data.map Char.toLower)

/-- Python slicing `s[start : start + len]` on a string (code-point indexed). -/
def pySlice (s : String) (start len : Nat) : String :=
  String.mk ((s.data.drop start).take len)

/-- Python slicing `s[:n]` on a string. -/
def pyCap (s : String) (n : Nat) : String := String.mk (s.data.take n)

/-! ## PDF cache

Modelled from the spec: `_pdf_cache = TTLCache(maxsize=20, ttl=600)`
(`server.py` line 115) instantiates `cachetools.TTLCache`, whose implementation
is external to this repository.  The spec describes it as a bounded map keyed
by URL with a time-based expiry (`ttl` seconds) and a maximum entry count,
least-recently-inserted eviction once full (insertion order governs eviction,
not access order), and lazy expiry checks on read.  Entries are kept oldest
first; `now` is an abstract clock in seconds. -/
structure TTLCache where
  entries : List (String × String × Nat)
  maxsize : Nat
  ttl : Nat
  deriving DecidableEq

/-- Look up the value and expiry time stored for key `k`. -/
def findVal (k : String) : List (String × String × Nat) → Option (String × Nat)
  | [] => none
  | (k1, v, e) :: rest => if k1 = k then some (v, e) else findVal k rest

/-- Membership test `url in _pdf_cache`: present and not expired at time `now`. -/
def TTLCache.containsKey (c : TTLCache) (k : String) (now : Nat) : Bool :=
  match findVal k c.entries with
  | some (_, e) => decide (now < e)
  | none => false

/-- Read `_pdf_cache[url]` (defaulting to the empty string when absent). -/
def TTLCache.getVal (c : TTLCache) (k : String) : String :=
  match findVal k c.entries with
  | some (v, _) => v
  | none => ""

/-- Write `_pdf_cache[url] = v` at time `now`: lazily drop expired entries and
any stale entry for the same key, evict oldest-inserted entries down to
capacity, then append the new entry with expiry `now + ttl`. -/
def TTLCache.insertItem (c : TTLCache) (k v : String) (now : Nat) : TTLCache :=
  let live := c.entries.filter (fun e => decide (now < e.2.2) && !(e.1 == k))
  let trimmed := live.drop (live.length + 1 - c.maxsize)
  { c with entries := trimmed ++ [(k, v, now + c.ttl)] }

/-- The initial `_pdf_cache`: `TTLCache(maxsize=20, ttl=600)`. -/
def pdfCacheInit : TTLCache := ⟨[], 20, 600⟩

/-! ## PDF extraction (`extract_content_from_pdf`, `server.py` lines 94-111) -/

/-- Result of `extract_content_from_pdf`: the returned text, the cache after
the call, and whether the external MarkItDown conversion was invoked. -/
structure PdfExtractResult where
  text : String
  cache : TTLCache
  converted : Bool
  deriving DecidableEq

/-- Embedding of `extract_content_from_pdf(data, url)`.  `convertResult` is the
text produced by the external MarkItDown conversion of `data` (the oracle for
`md.convert(tmp_path).text_content`).  On a hit the cached text is returned
unchanged; on a miss the conversion result is capped to 10,000,000 characters
for storage (`_pdf_cache[url] = text[:10_000_000]`) while the uncapped `text`
is returned (`return text`). -/
def extract_content_from_pdf (cache : TTLCache) (url : String) (now : Nat)
    (convertResult : String) : PdfExtractResult :=
  if cache.containsKey url now then
    ⟨cache.getVal url, cache, false⟩
  else
    ⟨convertResult, cache.insertItem url (pyCap convertResult 10000000) now, true⟩

/-! ## Robots.txt checking (`check_may_autonomously_fetch_url`, `server.py`
lines 58-91).  The robots.txt HTTP GET is an oracle: `robotsResp = none`
models an `httpx.HTTPError`, `some (status, body)` a completed response.
`canFetch processed url agent` is the oracle for
`Protego.parse(processed).can_fetch(str(url), user_agent)`; `robotTxtUrl` is
the value of `get_robots_txt_url(url)` (computed via the Python stdlib
`urlparse`/`urlunparse`). -/

/-- Message raised on an `httpx.HTTPError` while fetching robots.txt. -/
def connectionErrorMessage (robotTxtUrl : String) : String :=
  "Failed to fetch robots.txt " ++ robotTxtUrl ++ " due to a connection issue"

/-- Message raised when robots.txt answers 401 or 403. -/
def statusDeniedMessage (robotTxtUrl : String) (status : Nat) : String :=
  "When fetching robots.txt (" ++ robotTxtUrl ++ "), received status " ++
    toString status ++
    " so assuming that autonomous fetching is not allowed, the user can try manually fetching by using the fetch prompt"

/-- Message raised when the parsed robots.txt rules disallow the fetch. -/
def deniedMessage (robotTxtUrl userAgent url robotTxt : String) : String :=
  "The sites robots.txt (" ++ robotTxtUrl ++
    "), specifies that autonomous fetching of this page is not allowed, " ++
    "<useragent>" ++ userAgent ++ "</useragent>\n" ++
    "<url>" ++ url ++ "</url>" ++
    "<robots>\n" ++ robotTxt ++ "\n</robots>\n" ++
    "The assistant must let the user know that it failed to view the page. The assistant may provide further guidance based on the above information.\n" ++
    "The assistant can tell the user that they can try manually fetching the page by using the fetch prompt within their UI."

/-- Comment-line stripping before parsing: keep the lines whose stripped form
does not start with `#`, rejoined by newlines (Python `splitlines` modelled by
splitting on the newline character). -/
def processedRobotsTxt (robotTxt : String) : String :=
  String.intercalate ("\n")
    ((robotTxt.splitOn ("\n")).filter (fun line => !(line.trim.startsWith ("#"))))

/-- Embedding of `check_may_autonomously_fetch_url(url, user_agent, proxy_url)`
after the robots.txt GET completed with outcome `robotsResp`. -/
def check_may_autonomously_fetch_url (url userAgent robotTxtUrl : String)
    (robotsResp : Option (Nat × String))
    (canFetch : String → String → String → Bool) : Except String Unit :=
  match robotsResp with
  | none => .error (connectionErrorMessage robotTxtUrl)
  | some (status, robotTxt) =>
    if status = 401 ∨ status = 403 then
      .error (statusDeniedMessage robotTxtUrl status)
    else if 400 ≤ status ∧ status < 500 then
      .ok ()
    else if canFetch (processedRobotsTxt robotTxt) url userAgent then
      .ok ()
    else
      .error (deniedMessage robotTxtUrl userAgent url robotTxt)

/-! ## HTML extraction and content-type dispatch (`extract_content_from_html`
and `fetch_url`, `server.py` lines 19-37 and 118-160).  `simplifyContent` is
the oracle for `readabilipy.simple_json.simple_json_from_html_string(...)["content"]`
(the empty string models a falsy content field) and `mkdownify` the oracle for
`markdownify.markdownify(..., heading_style=ATX)`. -/

/-- Embedding of `extract_content_from_html(html)`. -/
def extract_content_from_html (html : String)
    (simplifyContent : String → String) (mkdownify : String → String) : String :=
  if simplifyContent html = "" then
    "<error>Page failed to be simplified from HTML</error>"
  else mkdownify (simplifyContent html)

/-- A completed HTTP response: `response.status_code`, `response.text`,
`response.content` and `response.headers.get("content-type", "")`. -/
structure HttpResponse where
  status : Nat
  text : String
  rawBytes : List UInt8
  contentType : String
  deriving DecidableEq

/-- The 5-byte PDF magic signature `%PDF-`. -/
def pdfMagic : List UInt8 := [0x25, 0x50, 0x44, 0x46, 0x2D]

/-- PDF detection (`server.py` line 144): content-type contains
`application/pdf` (case-insensitively), or the URL ends in `.pdf`
(case-insensitively), or the bytes start with `%PDF-`. -/
def isPdfResponse (contentType url : String) (rawBytes : List UInt8) : Bool :=
  hasSubstring ("application/pdf").data (strLower contentType).data ||
    hasSuffixSeq (".pdf").data (strLower url).data ||
    hasPrefixSeq pdfMagic rawBytes

/-- HTML detection (`server.py` lines 150-152): `<html` occurs in the first
100 characters of the body, or the content-type contains `text/html`, or the
content-type header is absent (empty). -/
def isPageHtml (pageRaw contentType : String) : Bool :=
  hasSubstring ("<html").data (pageRaw.data.take 100) ||
    hasSubstring ("text/html").data contentType.data ||
    contentType == ""

/-- Oracles for all external collaborators of one `fetch` call. -/
structure NetEnv where
  robotsUrlOf : String → String
  robotsResp : Option (Nat × String)
  canFetch : String → String → String → Bool
  httpResp : Option HttpResponse
  httpErrRepr : String
  simplifyContent : String → String
  mkdownify : String → String
  pdfConvert : List UInt8 → String

/-- Result of `fetch_url` past the HTTP GET: the `(content, prefix)` pair, the
PDF cache after the call, and whether PDF conversion was invoked. -/
structure FetchUrlResult where
  content : String
  pfx : String
  cache : TTLCache
  pdfConverted : Bool
  deriving DecidableEq

/-- Embedding of the content-type dispatch of `fetch_url` (`server.py` lines
142-160), given the completed response `resp`. -/
def fetch_url_dispatch (resp : HttpResponse) (url : String) (forceRaw : Bool)
    (cache : TTLCache) (now : Nat) (env : NetEnv) : FetchUrlResult :=
  if isPdfResponse resp.contentType url resp.rawBytes then
    let r := extract_content_from_pdf cache url now (env.pdfConvert resp.rawBytes)
    ⟨r.text, "", r.cache, r.converted⟩
  else if isPageHtml resp.text resp.contentType && !forceRaw then
    ⟨extract_content_from_html resp.text env.simplifyContent env.mkdownify, "",
      cache, false⟩
  else
    ⟨resp.text,
      "Content type " ++ resp.contentType ++
        " cannot be simplified to markdown, but here is the raw content:\n",
      cache, false⟩

/-! ## Paginator and result formatting (`fetch`, `server.py` lines 212-228) -/

/-- The literal no-more-content marker. -/
def NO_MORE_CONTENT : String := "<error>No more content available.</error>"

/-- The literal continuation notice naming the next start index. -/
def truncNotice (nextStart : Nat) : String :=
  "\n\n<error>Content truncated. Call the fetch tool with a start_index of " ++
    toString nextStart ++ " to get more content.</error>"

/-- Embedding of the pagination logic of `fetch` (lines 212-226). -/
def paginate (content : String) (startIndex maxLength : Nat) : String :=
  let originalLength := content.length
  if startIndex ≥ originalLength then NO_MORE_CONTENT
  else
    let truncated := pySlice content startIndex maxLength
    if truncated.length = 0 then NO_MORE_CONTENT
    else
      let actual := truncated.length
      let remaining := originalLength - (startIndex + actual)
      if actual = maxLength ∧ remaining > 0 then
        truncated ++ truncNotice (startIndex + actual)
      else truncated

/-- The final output format (line 228): `{prefix}Contents of {url}:\n{content}`. -/
def formatResult (pfx url content : String) : String :=
  pfx ++ "Contents of " ++ url ++ ":\n" ++ content

/-! ## Server configuration and the `fetch` tool (`server.py` lines 165-239,
`__init__.py` lines 4-28) -/

/-- Default autonomous user agent (`server.py` line 15). -/
def DEFAULT_USER_AGENT_AUTONOMOUS : String :=
  "ModelContextProtocol/1.0 (Autonomous; +https://github.com/modelcontextprotocol/servers)"

/-- The process-wide globals set by `configure_server`. -/
structure ServerConfig where
  customUserAgent : Option String
  ignoreRobotsTxt : Bool
  proxyUrl : Option String
  deriving DecidableEq

/-- Python `_custom_user_agent or DEFAULT_USER_AGENT_AUTONOMOUS` (`or` falls
through on `None` and on the empty string). -/
def effectiveUserAgent (cua : Option String) : String :=
  match cua with
  | some s => if s = "" then DEFAULT_USER_AGENT_AUTONOMOUS else s
  | none => DEFAULT_USER_AGENT_AUTONOMOUS

/-- Arguments of one `fetch` tool call (Python ints modelled as `Int`). -/
structure FetchArgs where
  url : String
  max_length : Int
  start_index : Int
  raw : Bool
  deriving DecidableEq

/-- Result of one `fetch` tool call: the returned string or raised error, plus
whether the robots.txt check ran, whether the main HTTP GET was issued, and
the PDF cache afterwards. -/
structure ToolResult where
  result : Except String String
  robotsChecked : Bool
  mainFetched : Bool
  cache : TTLCache

/-- Validation message for a bad `max_length` (line 195). -/
def MAX_LENGTH_MSG : String := "max_length must be between 1 and 999999"

/-- Validation message for a negative `start_index` (line 198). -/
def START_INDEX_MSG : String := "start_index must be >= 0"

/-- Validation message for an empty `url` (line 201). -/
def URL_REQUIRED_MSG : String := "URL is required"

/-- Embedding of the `fetch` tool (`server.py` lines 174-228): validation,
optional robots.txt check, HTTP GET, dispatch, pagination, formatting. -/
def fetchTool (a : FetchArgs) (cfg : ServerConfig) (env : NetEnv)
    (cache : TTLCache) (now : Nat) : ToolResult :=
  if a.max_length ≤ 0 ∨ 1000000 ≤ a.max_length then
    ⟨.error MAX_LENGTH_MSG, false, false, cache⟩
  else if a.start_index < 0 then
    ⟨.error START_INDEX_MSG, false, false, cache⟩
  else if a.url = "" then
    ⟨.error URL_REQUIRED_MSG, false, false, cache⟩
  else
    let ua := effectiveUserAgent cfg.customUserAgent
    let robotsOutcome : Except String Unit :=
      if cfg.ignoreRobotsTxt then .ok ()
      else
        check_may_autonomously_fetch_url a.url ua (env.robotsUrlOf a.url)
          env.robotsResp env.canFetch
    match robotsOutcome with
    | .error m => ⟨.error m, !cfg.ignoreRobotsTxt, false, cache⟩
    | .ok _ =>
      match env.httpResp with
      | none =>
        ⟨.error ("Failed to fetch " ++ a.url ++ ": " ++ env.httpErrRepr),
          !cfg.ignoreRobotsTxt, true, cache⟩
      | some resp =>
        if resp.status ≥ 400 then
          ⟨.error ("Failed to fetch " ++ a.url ++ " - status code " ++
              toString resp.status),
            !cfg.ignoreRobotsTxt, true, cache⟩
        else
          let fr := fetch_url_dispatch resp a.url a.raw cache now env
          ⟨.ok (formatResult fr.pfx a.url
              (paginate fr.content a.start_index.toNat a.max_length.toNat)),
            !cfg.ignoreRobotsTxt, true, fr.cache⟩

/-! ## Command-line startup (`__init__.py` lines 4-28) -/

/-- The command-line inputs relevant to configuration. -/
structure CliArgs where
  userAgent : Option String
  ignoreRobotsTxtFlagSupplied : Bool
  proxyUrl : Option String

/-- The value argparse assigns to `--ignore-robots-txt`: the option is
declared with `action="store_true"`, so it parses to `True` exactly when the
flag is supplied on the command line and defaults to `False` otherwise. -/
def parse_ignore_robots_txt (flagSupplied : Bool) : Bool := flagSupplied

/-- The process-wide configuration produced by a command-line start:
`main()` parses the arguments and calls `serve(...)`, which calls
`configure_server(...)`. -/
def mainConfig (cli : CliArgs) : ServerConfig :=
  ⟨cli.userAgent, parse_ignore_robots_txt cli.ignoreRobotsTxtFlagSupplied,
    cli.proxyUrl⟩

/-- The default of the `ignore_robots_txt` parameter of `serve` and
`configure_server` (`server.py` lines 232 and 243), used only when those
functions are called programmatically without the argument. -/
def serveDefaultIgnoreRobotsTxt : Bool := true

/-! ## Concrete scenarios used by counterexamples and witnesses -/

/-- A conversion result one character longer than the cache cap. -/
def bigConvertResult : String := String.mk (List.replicate 10000001 'a')

/-- A plain-text response used to exercise the raw branch. -/
def c9Resp : HttpResponse := ⟨200, "0123456789", [], "text/plain"⟩

/-- An environment delivering `c9Resp` for the main GET. -/
def c9Env : NetEnv :=
  ⟨fun _ => "", some (404, ""), fun _ _ _ => true, some c9Resp, "",
    fun _ => "", fun s => s, fun _ => ""⟩

/-- A fetch request with `max_length = 5`, `start_index = 0`, `raw = true`. -/
def c9Args : FetchArgs := ⟨"u", 5, 0, true⟩

/-- A permissive configuration (robots.txt ignored). -/
def c9Cfg : ServerConfig := ⟨none, true, none⟩

/-- The advisory prefix produced for `c9Resp` on the raw branch. -/
def c9Pfx : String :=
  "Content type text/plain cannot be simplified to markdown, but here is the raw content:\n"

/-- A command-line start where `--ignore-robots-txt` is not supplied. -/
def c3Cli : CliArgs := ⟨none, false, none⟩

/-- An environment whose robots.txt GET answers 404 (no restrictions). -/
def c3Env : NetEnv :=
  ⟨fun _ => "", some (404, ""), fun _ _ _ => true, none, "err",
    fun _ => "", fun s => s, fun _ => ""⟩

/-- A valid fetch request. -/
def c3Args : FetchArgs := ⟨"u", 5000, 0, false⟩

/-- A full cache: 20 distinct fresh entries, inserted oldest first. -/
def w20Cache : TTLCache :=
  ⟨(List.range 20).map (fun i => (toString i, "v", 600)), 20, 600⟩

/-- A one-entry cache holding text for URL `u`, expiring at time 600. -/
def hitCache : TTLCache := ⟨[("u", "txt", 600)], 20, 600⟩

/-- A response whose content-type announces a PDF. -/
def c10Resp : HttpResponse := ⟨200, "x", [], "application/pdf"⟩

end McpFetch

namespace McpFetch

/-! ## Basic lemmas about the helpers -/

theorem length_mk (l : List Char) : (String.mk l).length = l.length := rfl

theorem pyCap_length_le (s : String) (n : Nat) : (pyCap s n).length ≤ n := by
  simp [pyCap, length_mk]

theorem findVal_eq_none (k : String) (l : List (String × String × Nat))
    (h : ∀ e ∈ l, e.1 ≠ k) : findVal k l = none := by
  induction l with
  | nil => rfl
  | cons a t ih =>
    have ha : a.1 ≠ k := h a (List.mem_cons_self a t)
    have : findVal k t = none := ih (fun e he => h e (List.mem_cons_of_mem a he))
    simpa [findVal, ha]

theorem findVal_append_last (k v : String) (e : Nat)
    (l : List (String × String × Nat)) (h : ∀ x ∈ l, x.1 ≠ k) :
    findVal k (l ++ [(k, v, e)]) = some (v, e) := by
  induction l with
  | nil => simp [findVal]
  | cons a t ih =>
    have ha : a.1 ≠ k := h a (List.mem_cons_self a t)
    have ht := ih (fun x hx => h x (List.mem_cons_of_mem a hx))
    simpa [findVal, ha]

end McpFetch

namespace McpFetch

/-! ## C5 — pagination returns the no-more-content marker -/

/-- C5: for every content string and pagination inputs, if the start index is
at least the content length, or the selected substring is empty, the content
part of the pagination result is exactly the literal marker
`<error>No more content available.</error>`. -/
theorem paginate_no_more_marker (content : String) (startIndex maxLength : Nat) :
    (content.length ≤ startIndex →
      paginate content startIndex maxLength = NO_MORE_CONTENT) ∧
    ((content.data.drop startIndex).take maxLength = [] →
      paginate content startIndex maxLength = NO_MORE_CONTENT) := by
  constructor
  · intro h
    simp only [paginate]
    rw [if_pos h]
  · intro h
    by_cases hge : content.length ≤ startIndex
    · simp only [paginate]
      rw [if_pos hge]
    · simp only [paginate, ge_iff_le]
      rw [if_neg hge]
      simp [pySlice, h, length_mk]

/-- Witness for C5 at concrete inputs. -/
theorem paginate_no_more_marker_witness :
    paginate ("ab") 5 3 = NO_MORE_CONTENT ∧
    paginate ("ab") 1 0 = NO_MORE_CONTENT := by
  exact ⟨(paginate_no_more_marker ("ab") 5 3).1 (by decide),
    (paginate_no_more_marker ("ab") 1 0).2 (by decide)⟩

/-! ## C2 — repeated PDF extraction hits the cache -/

/-- C2: while a URL's entry is live in the PDF cache, extraction returns the
cached text (byte-identical across calls), leaves the cache unchanged, and
never invokes the external conversion. -/
theorem pdf_cache_hit_idempotent (cache : TTLCache) (url : String)
    (now now2 : Nat) (conv conv2 : String)
    (h1 : cache.containsKey url now = true)
    (h2 : cache.containsKey url now2 = true) :
    (extract_content_from_pdf cache url now conv).converted = false ∧
    (extract_content_from_pdf cache url now conv).cache = cache ∧
    (extract_content_from_pdf cache url now conv).text = cache.getVal url ∧
    (extract_content_from_pdf (extract_content_from_pdf cache url now conv).cache
        url now2 conv2).text =
      (extract_content_from_pdf cache url now conv).text ∧
    (extract_content_from_pdf (extract_content_from_pdf cache url now conv).cache
        url now2 conv2).converted = false := by
  simp [extract_content_from_pdf, h1, h2]

/-- Witness for C2 on a concrete one-entry cache. -/
theorem pdf_cache_hit_idempotent_witness :
    (extract_content_from_pdf hitCache ("u") 0 ("other")).text =
      hitCache.getVal ("u") ∧
    (extract_content_from_pdf (extract_content_from_pdf hitCache ("u") 0 ("other")).cache
        ("u") 5 ("another")).converted = false := by
  have h := pdf_cache_hit_idempotent hitCache ("u") 0 5 ("other") ("another")
    (by decide) (by decide)
  exact ⟨h.2.2.1, h.2.2.2.2⟩

/-! ## C7 — validation failures precede all network I/O -/

/-- C7: calls with `max_length ≤ 0` or `max_length ≥ 1000000`, or with a
negative `start_index`, or with an empty URL, fail with their respective
distinct validation messages, and neither the robots.txt check nor the main
HTTP GET is performed (and the cache is untouched). -/
theorem fetch_validation_errors (a : FetchArgs) (cfg : ServerConfig)
    (env : NetEnv) (cache : TTLCache) (now : Nat) :
    ((a.max_length ≤ 0 ∨ 1000000 ≤ a.max_length) →
      fetchTool a cfg env cache now =
        ⟨.error MAX_LENGTH_MSG, false, false, cache⟩) ∧
    (0 < a.max_length → a.max_length < 1000000 → a.start_index < 0 →
      fetchTool a cfg env cache now =
        ⟨.error START_INDEX_MSG, false, false, cache⟩) ∧
    (0 < a.max_length → a.max_length < 1000000 → 0 ≤ a.start_index →
      a.url = "" →
      fetchTool a cfg env cache now =
        ⟨.error URL_REQUIRED_MSG, false, false, cache⟩) ∧
    MAX_LENGTH_MSG ≠ START_INDEX_MSG ∧ MAX_LENGTH_MSG ≠ URL_REQUIRED_MSG ∧
    START_INDEX_MSG ≠ URL_REQUIRED_MSG := by
  refine ⟨?_, ?_, ?_, by decide, by decide, by decide⟩
  · intro h
    simp only [fetchTool]
    rw [if_pos h]
  · intro h1 h2 h3
    have hn : ¬(a.max_length ≤ 0 ∨ 1000000 ≤ a.max_length) := by omega
    simp only [fetchTool]
    rw [if_neg hn, if_pos h3]
  · intro h1 h2 h3 h4
    have hn : ¬(a.max_length ≤ 0 ∨ 1000000 ≤ a.max_length) := by omega
    have hn2 : ¬(a.start_index < 0) := by omega
    simp only [fetchTool]
    rw [if_neg hn, if_neg hn2, if_pos h4]

/-- Witness for C7: the boundary values `max_length = 0` and
`max_length = 1000000`, a negative start index, and an empty URL. -/
theorem fetch_validation_errors_witness :
    fetchTool ⟨"u", 0, 0, false⟩ c9Cfg c9Env pdfCacheInit 0 =
      ⟨.error MAX_LENGTH_MSG, false, false, pdfCacheInit⟩ ∧
    fetchTool ⟨"u", 1000000, 0, false⟩ c9Cfg c9Env pdfCacheInit 0 =
      ⟨.error MAX_LENGTH_MSG, false, false, pdfCacheInit⟩ ∧
    fetchTool ⟨"u", 5000, -1, false⟩ c9Cfg c9Env pdfCacheInit 0 =
      ⟨.error START_INDEX_MSG, false, false, pdfCacheInit⟩ ∧
    fetchTool ⟨"", 5000, 0, false⟩ c9Cfg c9Env pdfCacheInit 0 =
      ⟨.error URL_REQUIRED_MSG, false, false, pdfCacheInit⟩ := by
  refine ⟨(fetch_validation_errors ⟨"u", 0, 0, false⟩ c9Cfg c9Env pdfCacheInit 0).1
      (by decide),
    (fetch_validation_errors ⟨"u", 1000000, 0, false⟩ c9Cfg c9Env pdfCacheInit 0).1
      (by decide),
    (fetch_validation_errors ⟨"u", 5000, -1, false⟩ c9Cfg c9Env pdfCacheInit 0).2.1
      (by decide) (by decide) (by decide),
    (fetch_validation_errors ⟨"", 5000, 0, false⟩ c9Cfg c9Env pdfCacheInit 0).2.2.1
      (by decide) (by decide) (by decide) rfl⟩

/-! ## C10 — the raw flag does not bypass PDF handling -/

/-- C10: when the response is detected as PDF, the content dispatch performs
PDF extraction with caching and returns the extracted text with an empty
advisory prefix, identically for `raw = true` and `raw = false`: the raw flag
is only consulted in the HTML branch, which comes after the PDF check. -/
theorem raw_flag_does_not_bypass_pdf (resp : HttpResponse) (url : String)
    (cache : TTLCache) (now : Nat) (env : NetEnv)
    (hpdf : isPdfResponse resp.contentType url resp.rawBytes = true) :
    fetch_url_dispatch resp url true cache now env =
      fetch_url_dispatch resp url false cache now env ∧
    ∀ forceRaw : Bool,
      (fetch_url_dispatch resp url forceRaw cache now env).content =
        (extract_content_from_pdf cache url now
          (env.pdfConvert resp.rawBytes)).text ∧
      (fetch_url_dispatch resp url forceRaw cache now env).pfx = "" ∧
      (fetch_url_dispatch resp url forceRaw cache now env).cache =
        (extract_content_from_pdf cache url now
          (env.pdfConvert resp.rawBytes)).cache := by
  simp [fetch_url_dispatch, hpdf]

/-- Witness for C10 on a response with content-type `application/pdf`. -/
theorem raw_flag_does_not_bypass_pdf_witness :
    fetch_url_dispatch c10Resp ("u") true pdfCacheInit 0 c9Env =
      fetch_url_dispatch c10Resp ("u") false pdfCacheInit 0 c9Env ∧
    (fetch_url_dispatch c10Resp ("u") true pdfCacheInit 0 c9Env).pfx = "" := by
  have h := raw_flag_does_not_bypass_pdf c10Resp ("u") pdfCacheInit 0 c9Env
    (by decide)
  exact ⟨h.1, (h.2 true).2.1⟩

end McpFetch

namespace McpFetch

/-! ## Cache lemmas shared by C1 and C4 -/

/-- Entries surviving the filter step of an insert have keys different from
the inserted key. -/
theorem insert_live_keys (c : TTLCache) (k : String) (now : Nat) (x : String × String × Nat)
    (hx : x ∈ c.entries.filter (fun e => decide (now < e.2.2) && !(e.1 == k))) :
    x.1 ≠ k := by
  have hp := (List.mem_filter.mp hx).2
  simp only [Bool.and_eq_true, decide_eq_true_eq, Bool.not_eq_true',
    beq_eq_false_iff_ne, ne_eq] at hp
  exact hp.2

/-- After an insert, looking up the inserted key finds the inserted value. -/
theorem insert_findVal (c : TTLCache) (k v : String) (now : Nat) :
    findVal k (c.insertItem k v now).entries = some (v, now + c.ttl) := by
  simp only [TTLCache.insertItem]
  apply findVal_append_last
  intro x hx
  exact insert_live_keys c k now x
    (List.Sublist.subset (List.drop_sublist _ _) hx)

/-- After an insert, reading the inserted key returns the inserted value. -/
theorem insert_getVal (c : TTLCache) (k v : String) (now : Nat) :
    (c.insertItem k v now).getVal k = v := by
  simp [TTLCache.getVal, insert_findVal]

/-- Every entry present after an insert is either an old entry or the newly
inserted one. -/
theorem mem_insert_entries (c : TTLCache) (k v : String) (now : Nat)
    (x : String × String × Nat) (hx : x ∈ (c.insertItem k v now).entries) :
    x ∈ c.entries ∨ x = (k, v, now + c.ttl) := by
  simp only [TTLCache.insertItem, List.mem_append] at hx
  rcases hx with h | h
  · exact Or.inl (List.mem_filter.mp
      (List.Sublist.subset (List.drop_sublist _ _) h)).1
  · simp only [List.mem_singleton] at h
    exact Or.inr h

end McpFetch

namespace McpFetch

/-! ## C1 — cache miss: the cap applies to the stored text, not the return -/

/-- C1 counterexample: on a cache miss whose conversion result has 10,000,001
characters, `extract_content_from_pdf` returns a text of 10,000,001 characters
(the uncapped conversion result), different from the capped text it stores in
the cache — refuting that the capped text (at most 10,000,000 characters) is
what the operation returns. -/
theorem pdf_return_exceeds_cap_counterexample :
    10000000 <
      (extract_content_from_pdf pdfCacheInit ("u") 0 bigConvertResult).text.length ∧
    (extract_content_from_pdf pdfCacheInit ("u") 0 bigConvertResult).text ≠
      (extract_content_from_pdf pdfCacheInit ("u") 0 bigConvertResult).cache.getVal
        ("u") := by
  have hx : extract_content_from_pdf pdfCacheInit ("u") 0 bigConvertResult =
      ⟨bigConvertResult,
        pdfCacheInit.insertItem ("u") (pyCap bigConvertResult 10000000) 0,
        true⟩ := rfl
  have hlen : bigConvertResult.length = 10000001 := by
    show (String.mk (List.replicate 10000001 'a')).length = 10000001
    rw [length_mk, List.length_replicate]
  have hcap : (pyCap bigConvertResult 10000000).length = 10000000 := by
    show (String.mk ((String.mk (List.replicate 10000001 'a')).data.take
        10000000)).length = 10000000
    rw [length_mk]
    show ((List.replicate 10000001 'a').take 10000000).length = 10000000
    rw [List.take_replicate, List.length_replicate]
    omega
  have hget : (pdfCacheInit.insertItem ("u") (pyCap bigConvertResult 10000000)
      0).getVal ("u") = pyCap bigConvertResult 10000000 :=
    insert_getVal pdfCacheInit ("u") (pyCap bigConvertResult 10000000) 0
  rw [hx]
  constructor
  · show 10000000 < bigConvertResult.length
    omega
  · show bigConvertResult ≠
      (pdfCacheInit.insertItem ("u") (pyCap bigConvertResult 10000000) 0).getVal
        ("u")
    rw [hget]
    intro heq
    have h2 := congrArg String.length heq
    rw [hlen, hcap] at h2
    exact absurd h2 (by decide)

/-- C1 amended: on a PDF-cache miss the conversion result capped to 10,000,000
characters is stored keyed by the URL (so every stored value has length at
most 10,000,000, preserving the cache invariant), and the fetch_url PDF branch
attaches the empty advisory prefix; but the text returned by the operation is
the uncapped conversion result. -/
theorem pdf_extract_miss_amended (cache : TTLCache) (url : String) (now : Nat)
    (conv : String)
    (hmiss : cache.containsKey url now = false)
    (hinv : ∀ e ∈ cache.entries, e.2.1.length ≤ 10000000) :
    (extract_content_from_pdf cache url now conv).text = conv ∧
    (extract_content_from_pdf cache url now conv).converted = true ∧
    (extract_content_from_pdf cache url now conv).cache.getVal url =
      pyCap conv 10000000 ∧
    (pyCap conv 10000000).length ≤ 10000000 ∧
    (∀ e ∈ (extract_content_from_pdf cache url now conv).cache.entries,
      e.2.1.length ≤ 10000000) ∧
    (∀ (resp : HttpResponse) (env : NetEnv) (fr : Bool),
      isPdfResponse resp.contentType url resp.rawBytes = true →
      (fetch_url_dispatch resp url fr cache now env).pfx = "") := by
  have hx : extract_content_from_pdf cache url now conv =
      ⟨conv, cache.insertItem url (pyCap conv 10000000) now, true⟩ := by
    simp [extract_content_from_pdf, hmiss]
  rw [hx]
  refine ⟨rfl, rfl, insert_getVal cache url _ now, pyCap_length_le conv _,
    ?_, ?_⟩
  · intro e he
    rcases mem_insert_entries cache url _ now e he with h | h
    · exact hinv e h
    · rw [h]
      exact pyCap_length_le conv _
  · intro resp env fr hp
    simp [fetch_url_dispatch, hp]

/-- Witness for C1 amended on a small concrete miss. -/
theorem pdf_extract_miss_amended_witness :
    (extract_content_from_pdf pdfCacheInit ("u") 0 ("txt")).text = "txt" ∧
    (extract_content_from_pdf pdfCacheInit ("u") 0 ("txt")).cache.getVal ("u") =
      pyCap ("txt") 10000000 := by
  have h := pdf_extract_miss_amended pdfCacheInit ("u") 0 ("txt") (by decide)
    (by decide)
  exact ⟨h.1, h.2.2.1⟩

end McpFetch

namespace McpFetch

/-! ## C4 — cache bound and insertion-order eviction -/

/-- C4: the PDF cache never exceeds its maximum size, and a PDF extraction
inserting a 21st distinct URL into a full, fresh, 20-entry cache evicts
exactly one entry — the oldest by insertion order — keeping the size at 20. -/
theorem pdf_cache_bound_and_eviction (cache : TTLCache) (url : String)
    (now : Nat) (conv : String)
    (hmax : cache.maxsize = 20) (hfull : cache.entries.length = 20)
    (hfresh : ∀ e ∈ cache.entries, now < e.2.2)
    (hdistinct : ∀ e ∈ cache.entries, e.1 ≠ url) :
    (extract_content_from_pdf cache url now conv).cache.entries =
      cache.entries.tail ++ [(url, pyCap conv 10000000, now + cache.ttl)] ∧
    (extract_content_from_pdf cache url now conv).cache.entries.length = 20 ∧
    (∀ (c : TTLCache) (k v : String) (n : Nat), 1 ≤ c.maxsize →
      c.entries.length ≤ c.maxsize →
      (c.insertItem k v n).entries.length ≤ c.maxsize) := by
  have hmiss : cache.containsKey url now = false := by
    simp [TTLCache.containsKey, findVal_eq_none url cache.entries hdistinct]
  have hx : extract_content_from_pdf cache url now conv =
      ⟨conv, cache.insertItem url (pyCap conv 10000000) now, true⟩ := by
    simp [extract_content_from_pdf, hmiss]
  have hlive : cache.entries.filter
      (fun e => decide (now < e.2.2) && !(e.1 == url)) = cache.entries := by
    apply List.filter_eq_self.mpr
    intro e he
    simp only [Bool.and_eq_true, decide_eq_true_eq, Bool.not_eq_true',
      beq_eq_false_iff_ne, ne_eq]
    exact ⟨hfresh e he, hdistinct e he⟩
  have hins : (cache.insertItem url (pyCap conv 10000000) now).entries =
      cache.entries.tail ++ [(url, pyCap conv 10000000, now + cache.ttl)] := by
    simp only [TTLCache.insertItem, hlive, hfull, hmax]
    rw [show (20 : Nat) + 1 - 20 = 1 from rfl, List.drop_one]
  refine ⟨by rw [hx]; exact hins, ?_, ?_⟩
  · rw [hx]
    show (cache.insertItem url (pyCap conv 10000000) now).entries.length = 20
    rw [hins]
    simp [List.length_tail, hfull]
  · intro c k v n h1 h2
    have hl : (c.entries.filter
        (fun e => decide (n < e.2.2) && !(e.1 == k))).length ≤
        c.entries.length := List.length_filter_le _ _
    simp only [TTLCache.insertItem, List.length_append, List.length_drop,
      List.length_cons, List.length_nil]
    omega

/-- Witness for C4: a full cache of 20 distinct fresh entries plus a 21st URL. -/
theorem pdf_cache_bound_and_eviction_witness :
    (extract_content_from_pdf w20Cache ("x") 0 ("t")).cache.entries =
      w20Cache.entries.tail ++ [("x", pyCap ("t") 10000000, 600)] ∧
    (extract_content_from_pdf w20Cache ("x") 0 ("t")).cache.entries.length = 20 := by
  have h := pdf_cache_bound_and_eviction w20Cache ("x") 0 ("t") (by decide)
    (by decide) (by decide) (by decide)
  exact ⟨h.1, h.2.1⟩

end McpFetch

namespace McpFetch

/-! ## C3 — the startup default for robots.txt enforcement -/

/-- C3 counterexample: a command-line start where `--ignore-robots-txt` is not
supplied configures `ignore_robots_txt = False` (argparse `store_true`
default), and a subsequent valid fetch call does perform the robots.txt
permission check — refuting that the startup flag defaults to ignore. -/
theorem cli_robots_default_counterexample :
    c3Cli.ignoreRobotsTxtFlagSupplied = false ∧
    (mainConfig c3Cli).ignoreRobotsTxt = false ∧
    (fetchTool c3Args (mainConfig c3Cli) c3Env pdfCacheInit 0).robotsChecked =
      true := by
  exact ⟨rfl, rfl, rfl⟩

/-- C3 amended: the command-line flag `--ignore-robots-txt` is a `store_true`
option, so whenever it is not supplied the server is configured with
`ignore_robots_txt = False` and every valid fetch call performs the robots.txt
permission check; only the programmatic default of `serve`/`configure_server`
is permissive (`True`). -/
theorem cli_robots_default_amended (cli : CliArgs)
    (hflag : cli.ignoreRobotsTxtFlagSupplied = false)
    (a : FetchArgs) (env : NetEnv) (cache : TTLCache) (now : Nat)
    (hv1 : ¬(a.max_length ≤ 0 ∨ 1000000 ≤ a.max_length))
    (hv2 : ¬(a.start_index < 0)) (hv3 : ¬(a.url = "")) :
    (mainConfig cli).ignoreRobotsTxt = false ∧
    (fetchTool a (mainConfig cli) env cache now).robotsChecked = true ∧
    serveDefaultIgnoreRobotsTxt = true := by
  have hcfg : (mainConfig cli).ignoreRobotsTxt = false := by
    simp [mainConfig, parse_ignore_robots_txt, hflag]
  refine ⟨hcfg, ?_, rfl⟩
  simp only [fetchTool]
  rw [if_neg hv1, if_neg hv2, if_neg hv3, hcfg]
  simp only [Bool.false_eq_true, if_false, Bool.not_false]
  split
  · rfl
  · split
    · rfl
    · split
      · rfl
      · rfl

/-- Witness for C3 amended on the concrete no-flag command line. -/
theorem cli_robots_default_amended_witness :
    (mainConfig c3Cli).ignoreRobotsTxt = false ∧
    (fetchTool c3Args (mainConfig c3Cli) c3Env pdfCacheInit 5).robotsChecked =
      true := by
  have h := cli_robots_default_amended c3Cli rfl c3Args c3Env pdfCacheInit 5
    (by decide) (by decide) (by decide)
  exact ⟨h.1, h.2.1⟩

/-! ## C9 — the returned string may exceed max_length -/

set_option maxRecDepth 16384 in
/-- C9: the `max_length` bound applies only to the content slice: this fetch
call with `max_length = 5` succeeds and returns a string strictly longer than
5 characters, because the advisory prefix, the `Contents of <url>:` header
line and the appended continuation notice lie outside the window. -/
theorem fetch_result_longer_than_max_length :
    (fetchTool c9Args c9Cfg c9Env pdfCacheInit 0).result =
      .ok (formatResult c9Pfx ("u") (paginate ("0123456789") 0 5)) ∧
    c9Args.max_length = 5 ∧
    5 < (formatResult c9Pfx ("u") (paginate ("0123456789") 0 5)).length := by
  exact ⟨rfl, rfl, by decide⟩

end McpFetch

namespace McpFetch

/-! ## C6 — continuation notice and final formatting -/

/-- C6: whenever the taken substring has exactly `maxLength` characters
(with `maxLength` positive, as validation guarantees) and content remains
beyond the window, the continuation notice naming `startIndex + maxLength` is
appended to the slice; and every successful fetch returns exactly the advisory
prefix, then `Contents of <url>:`, a newline, then the paginated content. -/
theorem paginate_continuation_and_format (content : String)
    (startIndex maxLength : Nat) (hpos : 0 < maxLength)
    (hlen : (pySlice content startIndex maxLength).length = maxLength)
    (hrem : startIndex + maxLength < content.length) :
    paginate content startIndex maxLength =
      pySlice content startIndex maxLength ++
        truncNotice (startIndex + maxLength) ∧
    ∀ (a : FetchArgs) (cfg : ServerConfig) (env : NetEnv) (cache : TTLCache)
      (now : Nat) (resp : HttpResponse),
      ¬(a.max_length ≤ 0 ∨ 1000000 ≤ a.max_length) → ¬(a.start_index < 0) →
      ¬(a.url = "") →
      (cfg.ignoreRobotsTxt = true ∨
        check_may_autonomously_fetch_url a.url
          (effectiveUserAgent cfg.customUserAgent) (env.robotsUrlOf a.url)
          env.robotsResp env.canFetch = .ok ()) →
      env.httpResp = some resp → resp.status < 400 →
      (fetchTool a cfg env cache now).result =
        .ok (formatResult
          (fetch_url_dispatch resp a.url a.raw cache now env).pfx a.url
          (paginate (fetch_url_dispatch resp a.url a.raw cache now env).content
            a.start_index.toNat a.max_length.toNat)) := by
  constructor
  · have hs : ¬(startIndex ≥ content.length) := by omega
    simp only [paginate]
    rw [if_neg hs, hlen]
    rw [if_neg (by omega : ¬(maxLength = 0))]
    rw [if_pos ⟨rfl, by omega⟩]
  · intro a cfg env cache now resp hv1 hv2 hv3 hrob hresp hst
    have hout : (if cfg.ignoreRobotsTxt then (Except.ok () : Except String Unit)
        else check_may_autonomously_fetch_url a.url
          (effectiveUserAgent cfg.customUserAgent) (env.robotsUrlOf a.url)
          env.robotsResp env.canFetch) = Except.ok () := by
      rcases hrob with h | h
      · rw [h]
        rfl
      · by_cases hig : cfg.ignoreRobotsTxt = true
        · rw [hig]
          rfl
        · rw [Bool.not_eq_true] at hig
          simp [hig, h]
    have hst2 : ¬(resp.status ≥ 400) := by omega
    simp only [fetchTool, hout, hresp, if_neg hv1, if_neg hv2, if_neg hv3,
      if_neg hst2]

/-- Witness for C6 on the concrete plain-text fetch scenario. -/
theorem paginate_continuation_and_format_witness :
    paginate ("0123456789") 0 5 =
      pySlice ("0123456789") 0 5 ++ truncNotice 5 ∧
    (fetchTool c9Args c9Cfg c9Env pdfCacheInit 0).result =
      .ok (formatResult
        (fetch_url_dispatch c9Resp ("u") true pdfCacheInit 0 c9Env).pfx ("u")
        (paginate
          (fetch_url_dispatch c9Resp ("u") true pdfCacheInit 0 c9Env).content
          0 5)) := by
  have h := paginate_continuation_and_format ("0123456789") 0 5 (by decide)
    (by decide) (by decide)
  exact ⟨h.1,
    h.2 c9Args c9Cfg c9Env pdfCacheInit 0 c9Resp (by decide) (by decide)
      (by decide) (Or.inl rfl) rfl (by decide)⟩

end McpFetch

namespace McpFetch

/-! ## C8 — robots.txt status dispatch and denial message contents -/

theorem data_append (a b : String) : (a ++ b).data = a.data ++ b.data := rfl

theorem infix_app_left {α : Type} {l m : List α} (r : List α)
    (h : l <:+: m) : l <:+: r ++ m := by
  rcases h with ⟨s, t, rfl⟩
  exact ⟨r ++ s, t, by simp⟩

theorem infix_self_app {α : Type} (l r : List α) : l <:+: l ++ r :=
  ⟨[], r, by simp⟩

/-- The denial message embeds the robots.txt URL, the user agent, the target
URL, and the raw robots.txt body. -/
theorem deniedMessage_mentions (robotTxtUrl userAgent url robotTxt : String) :
    robotTxtUrl.data <:+: (deniedMessage robotTxtUrl userAgent url robotTxt).data ∧
    userAgent.data <:+: (deniedMessage robotTxtUrl userAgent url robotTxt).data ∧
    url.data <:+: (deniedMessage robotTxtUrl userAgent url robotTxt).data ∧
    robotTxt.data <:+: (deniedMessage robotTxtUrl userAgent url robotTxt).data := by
  refine ⟨?_, ?_, ?_, ?_⟩ <;>
    simp only [deniedMessage, data_append, List.append_assoc] <;>
    repeat first
      | exact infix_self_app _ _
      | apply infix_app_left

/-- C8: the robots.txt check dispatches on the response status: 401 or 403
fails with the permission-denied status message; any other status in
[400, 500) succeeds without consulting the rule parser; otherwise the check
succeeds exactly when the parsed rules (over the comment-stripped body) allow
the user agent, and on denial the failure message embeds the robots.txt URL,
the user agent, the target URL, and the raw robots.txt body. -/
theorem robots_check_dispatch (url userAgent robotTxtUrl body : String)
    (status : Nat) (canFetch : String → String → String → Bool) :
    ((status = 401 ∨ status = 403) →
      check_may_autonomously_fetch_url url userAgent robotTxtUrl
          (some (status, body)) canFetch =
        .error (statusDeniedMessage robotTxtUrl status)) ∧
    (400 ≤ status → status < 500 → status ≠ 401 → status ≠ 403 →
      check_may_autonomously_fetch_url url userAgent robotTxtUrl
        (some (status, body)) canFetch = .ok ()) ∧
    (¬(400 ≤ status ∧ status < 500) →
      (check_may_autonomously_fetch_url url userAgent robotTxtUrl
          (some (status, body)) canFetch = .ok () ↔
        canFetch (processedRobotsTxt body) url userAgent = true) ∧
      (canFetch (processedRobotsTxt body) url userAgent = false →
        check_may_autonomously_fetch_url url userAgent robotTxtUrl
            (some (status, body)) canFetch =
          .error (deniedMessage robotTxtUrl userAgent url body) ∧
        robotTxtUrl.data <:+:
          (deniedMessage robotTxtUrl userAgent url body).data ∧
        userAgent.data <:+: (deniedMessage robotTxtUrl userAgent url body).data ∧
        url.data <:+: (deniedMessage robotTxtUrl userAgent url body).data ∧
        body.data <:+: (deniedMessage robotTxtUrl userAgent url body).data)) := by
  refine ⟨?_, ?_, ?_⟩
  · intro h
    rcases h with rfl | rfl <;> simp [check_may_autonomously_fetch_url]
  · intro h1 h2 h3 h4
    simp [check_may_autonomously_fetch_url, h1, h2, h3, h4]
  · intro h
    have hn1 : ¬(status = 401 ∨ status = 403) := by omega
    constructor
    · rcases Bool.eq_false_or_eq_true
        (canFetch (processedRobotsTxt body) url userAgent) with hc | hc <;>
        simp [check_may_autonomously_fetch_url, hn1, h, hc]
    · intro hc
      refine ⟨by simp [check_may_autonomously_fetch_url, hn1, h, hc], ?_, ?_, ?_, ?_⟩
      · exact (deniedMessage_mentions robotTxtUrl userAgent url body).1
      · exact (deniedMessage_mentions robotTxtUrl userAgent url body).2.1
      · exact (deniedMessage_mentions robotTxtUrl userAgent url body).2.2.1
      · exact (deniedMessage_mentions robotTxtUrl userAgent url body).2.2.2

/-- Witness for C8: a 403 response, a 404 response, and a 200 response whose
parsed rules deny the fetch. -/
theorem robots_check_dispatch_witness :
    check_may_autonomously_fetch_url ("https://e.com/p") ("X")
        ("https://e.com/robots.txt") (some (403, "")) (fun _ _ _ => false) =
      .error (statusDeniedMessage ("https://e.com/robots.txt") 403) ∧
    check_may_autonomously_fetch_url ("https://e.com/p") ("X")
        ("https://e.com/robots.txt") (some (404, "")) (fun _ _ _ => false) =
      .ok () ∧
    check_may_autonomously_fetch_url ("https://e.com/p") ("X")
        ("https://e.com/robots.txt") (some (200, "User-agent: X"))
        (fun _ _ _ => false) =
      .error (deniedMessage ("https://e.com/robots.txt") ("X")
        ("https://e.com/p") ("User-agent: X")) := by
  refine ⟨(robots_check_dispatch ("https://e.com/p") ("X")
      ("https://e.com/robots.txt") ("") 403 (fun _ _ _ => false)).1
      (Or.inr rfl),
    (robots_check_dispatch ("https://e.com/p") ("X")
      ("https://e.com/robots.txt") ("") 404 (fun _ _ _ => false)).2.1
      (by decide) (by decide) (by decide) (by decide),
    (((robots_check_dispatch ("https://e.com/p") ("X")
      ("https://e.com/robots.txt") ("User-agent: X") 200
      (fun _ _ _ => false)).2.2 (by decide)).2 rfl).1⟩

end McpFetch
